import Mathlib

/-!
Verification of the parking-fee calculator (`src/calculator.py`).

Embedding choices:
* An instant is the number of whole seconds since an epoch midnight whose day is a
  Monday (Python `weekday() = 0`); the system's validated inputs have the form
  `YYYY-MM-DD HH:MM`, so whole seconds lose nothing.  `datetime` comparison,
  `max`/`min`, `date()`, `time()` and `combine` become arithmetic on `Nat`.
* `datetime.combine(d, time.max)` (23:59:59.999999) is modelled as second 86399 of
  day `d`: the `.999999` part is never observable, because the slot-1 test caps the
  end time at 07:59 via `min` and the slot-3 window caps the overlap end at
  23:59:59 via `min`, and whole-second inputs never tie with it elsewhere.
* Money is exact rational arithmetic (`ℚ`).  Every slot fee the code can produce is
  an integer times 1, 0.9 or 0.5, hence an integer multiple of 1/10; at such values
  (and at the tiny day counts involved) Python's float arithmetic is exact enough
  that `round(total, 2)` returns exactly that multiple, so the rational model agrees
  with the float code on every value the claims mention.
* Python `round` on floats rounds halves to even.  An overlap of `s` whole seconds
  gives the float `s / 3600`, which is exactly a half-integer precisely when
  `s % 3600 = 1800` (the quotient is then the dyadic rational `(2k+1)/2`, produced
  exactly by IEEE division); otherwise the float is more than 1/7200 away from any
  half-integer, far beyond the rounding error of the division.  So
  `round(s / 3600)` is exactly round-half-to-even on the rational `s / 3600`.
-/

namespace Parking

/-- Seconds in a calendar day. -/
def secPerDay : Nat := 86400

/-- The time-of-day `time(h, m, s)`, in seconds after midnight. -/
def hms (h m s : Nat) : Nat := h * 3600 + m * 60 + s

/-- Embeds `dt.date()`, as a day number since the epoch. -/
def dateOf (t : ℕ) : Nat := t / secPerDay

/-- Embeds `dt.time()`, as seconds after midnight. -/
def timeOf (t : ℕ) : Nat := t % secPerDay

/-- Embeds `date.weekday()`: 0 = Monday .. 6 = Sunday (epoch day 0 is a Monday). -/
def weekdayOf (d : Nat) : Nat := d % 7

/-- Embeds `datetime.combine(day d, time-of-day s)`. -/
def combine (d s : Nat) : ℕ := d * secPerDay + s

/-- One weekday's row of `PricingCalculator.RATES`.  The `"17:00-23:59"` entry's
`max_stay` is the string `"Up to midnight"` and is never read by the code, so it is
not modelled. -/
structure DayRates where
  priceOneTime : ℚ
  slot2Price : ℚ
  slot2MaxStay : Nat
  slot3Price : ℚ
deriving DecidableEq

/-- Embeds `PricingCalculator.RATES`, keyed by Python weekday: days 0-4 (Mon-Fri) share one
row, Saturday (5) and Sunday (6) differ in the `"08:00-16:59"` slot. -/
def RATES (w : Nat) : DayRates :=
  if w = 5 then ⟨20, 3, 4, 5⟩
  else if w = 6 then ⟨20, 2, 8, 5⟩
  else ⟨20, 10, 2, 5⟩

/-- Embeds `round((overlap_end - overlap_start).total_seconds() / 3600)` for an overlap of
`s` whole seconds: round half to even (see the header comment). -/
def roundHours (s : Nat) : Nat :=
  let q := s / 3600
  let r := s % 3600
  if r < 1800 then q
  else if r = 1800 then (if q % 2 = 0 then q else q + 1)
  else q + 1

/-- Python `round` to the nearest integer, halves to even, on an exact nonnegative
rational `q = n / d` in lowest terms: the floor is `n / d`, and the fractional part
`(n % d) / d` is compared with `1/2` by cross-multiplication. -/
def rnd (q : ℚ) : ℕ :=
  let n := q.num.natAbs
  let d := q.den
  let f := n / d
  if 2 * (n % d) < d then f
  else if 2 * (n % d) = d then (if f % 2 = 0 then f else f + 1)
  else f + 1

/-- Python `round(x, 2)` on an exact nonnegative rational. -/
def round2 (q : ℚ) : ℚ := (rnd (q * 100) : ℚ) / 100

/-- Embeds `PricingCalculator._apply_discount`. -/
def applyDiscount (isFrequentParker : Bool) (price : ℚ) (currentTime : ℕ) : ℚ :=
  if !isFrequentParker then price
  else if hms 17 0 0 ≤ timeOf currentTime ∨ timeOf currentTime < hms 8 0 0 then
    price * (1 / 2)
  else price * (9 / 10)

/-- The slot-1 block of `calculate_fee` (00:00-07:59, flat fee): charged once for the
day when `max(day_start_dt.time(), 00:00) <= min(day_end_dt.time(), 07:59)`,
discounted at the representative instant `combine(current_day, 01:00)`. -/
def slot1Fee (isF : Bool) (d : Nat) (dayStart dayEnd : ℕ) : ℚ :=
  if max (timeOf dayStart) (hms 0 0 0) ≤ min (timeOf dayEnd) (hms 7 59 0) then
    applyDiscount isF (RATES (weekdayOf d)).priceOneTime (combine d (hms 1 0 0))
  else 0

/-- The tiered hourly fee of the slot-2 block: base price up to `maxStay` hours,
double price on the overage. -/
def hourlyFee (hours : Nat) (pricePerHour : ℚ) (maxStay : Nat) : ℚ :=
  if hours ≤ maxStay then (hours : ℚ) * pricePerHour
  else (maxStay : ℚ) * pricePerHour + ((hours - maxStay : Nat) : ℚ) * pricePerHour * 2

/-- The slot-2 block of `calculate_fee` (08:00-16:59, hourly with cap), discounted at
the representative instant `slot2_start_dt` (08:00). -/
def slot2Fee (isF : Bool) (d : Nat) (dayStart dayEnd : ℕ) : ℚ :=
  let slot2Start := combine d (hms 8 0 0)
  let slot2End := combine d (hms 16 59 0)
  let overlapStart := max dayStart slot2Start
  let overlapEnd := min dayEnd slot2End
  if overlapStart < overlapEnd then
    let hours := roundHours (overlapEnd - overlapStart)
    if 0 < hours then
      applyDiscount isF
        (hourlyFee hours (RATES (weekdayOf d)).slot2Price (RATES (weekdayOf d)).slot2MaxStay)
        slot2Start
    else 0
  else 0

/-- The slot-3 block of `calculate_fee` (17:00-23:59:59, hourly, no cap read),
discounted at the representative instant `slot3_start_dt` (17:00). -/
def slot3Fee (isF : Bool) (d : Nat) (dayStart dayEnd : ℕ) : ℚ :=
  let slot3Start := combine d (hms 17 0 0)
  let slot3End := combine d (hms 23 59 59)
  let overlapStart := max dayStart slot3Start
  let overlapEnd := min dayEnd slot3End
  if overlapStart < overlapEnd then
    let hours := roundHours (overlapEnd - overlapStart)
    if 0 < hours then
      applyDiscount isF ((hours : ℚ) * (RATES (weekdayOf d)).slot3Price) slot3Start
    else 0
  else 0

/-- One iteration of the day loop of `calculate_fee`: the fee accumulated for
calendar day `d`, clamping the stay to `[start_of_day, end_of_day]`. -/
def dayFee (isF : Bool) (arrival leave : ℕ) (d : Nat) : ℚ :=
  let dayStart := max arrival (combine d 0)
  let dayEnd := min leave (combine d 86399)
  slot1Fee isF d dayStart dayEnd + slot2Fee isF d dayStart dayEnd
    + slot3Fee isF d dayStart dayEnd

/-- The calendar days visited by the loop: `arrival.date()` to `leave.date()`
inclusive (empty when `leave.date() < arrival.date()`). -/
def dayRange (arrival leave : ℕ) : List Nat :=
  (List.range (dateOf leave + 1 - dateOf arrival)).map (dateOf arrival + ·)

/-- Embeds `PricingCalculator.calculate_fee`. -/
def calculate_fee (isF : Bool) (arrival leave : ℕ) : ℚ :=
  round2 (((dayRange arrival leave).map (dayFee isF arrival leave)).sum)

/-- Every weekday's flat fee is 20 in `RATES`. -/
theorem ratesPriceOneTime (w : ℕ) : (RATES w).priceOneTime = 20 := by
  unfold RATES
  split
  · rfl
  · split <;> rfl

/-- Every weekday's evening rate is 5 in `RATES`. -/
theorem ratesSlot3Price (w : ℕ) : (RATES w).slot3Price = 5 := by
  unfold RATES
  split
  · rfl
  · split <;> rfl

/-- Every weekday's daytime hourly rate is a natural number. -/
theorem ratesSlot2PriceNat (w : ℕ) : ∃ n : ℕ, (RATES w).slot2Price = (n : ℚ) := by
  unfold RATES
  split
  · exact ⟨3, by norm_num⟩
  · split
    · exact ⟨2, by norm_num⟩
    · exact ⟨10, by norm_num⟩

/-- The tiered hourly fee is a natural number whenever the rate is. -/
theorem nat_hourlyFee (hours maxStay : ℕ) (p : ℚ) (hp : ∃ n : ℕ, p = (n : ℚ)) :
    ∃ k : ℕ, hourlyFee hours p maxStay = (k : ℚ) := by
  obtain ⟨n, rfl⟩ := hp
  unfold hourlyFee
  split
  · exact ⟨hours * n, by push_cast; ring⟩
  · exact ⟨maxStay * n + (hours - maxStay) * n * 2, by push_cast; ring⟩

/-- Discounting an integer fee yields an integer multiple of one tenth. -/
theorem tenth_applyDiscount (isF : Bool) (t : ℕ) (q : ℚ) (h : ∃ n : ℕ, q = (n : ℚ)) :
    ∃ k : ℕ, applyDiscount isF q t = (k : ℚ) / 10 := by
  obtain ⟨n, rfl⟩ := h
  cases isF with
  | false =>
    refine ⟨10 * n, ?_⟩
    simp only [applyDiscount, Bool.not_false, if_true]
    push_cast
    ring
  | true =>
    by_cases hc : hms 17 0 0 ≤ timeOf t ∨ timeOf t < hms 8 0 0
    · refine ⟨5 * n, ?_⟩
      simp only [applyDiscount, Bool.not_true, Bool.false_eq_true, if_false, if_pos hc]
      push_cast
      ring
    · refine ⟨9 * n, ?_⟩
      simp only [applyDiscount, Bool.not_true, Bool.false_eq_true, if_false, if_neg hc]
      push_cast
      ring

/-- Sums of integer multiples of one tenth are integer multiples of one tenth. -/
theorem tenth_add {p q : ℚ} (hp : ∃ n : ℕ, p = (n : ℚ) / 10) (hq : ∃ n : ℕ, q = (n : ℚ) / 10) :
    ∃ n : ℕ, p + q = (n : ℚ) / 10 := by
  obtain ⟨a, rfl⟩ := hp
  obtain ⟨b, rfl⟩ := hq
  exact ⟨a + b, by push_cast; ring⟩

/-- The flat-slot fee is an integer multiple of one tenth. -/
theorem tenth_slot1Fee (isF : Bool) (d : ℕ) (s e : ℕ) :
    ∃ k : ℕ, slot1Fee isF d s e = (k : ℚ) / 10 := by
  unfold slot1Fee
  split
  · exact tenth_applyDiscount _ _ _ ⟨20, by rw [ratesPriceOneTime]; norm_num⟩
  · exact ⟨0, by norm_num⟩

/-- The daytime-slot fee is an integer multiple of one tenth. -/
theorem tenth_slot2Fee (isF : Bool) (d : ℕ) (s e : ℕ) :
    ∃ k : ℕ, slot2Fee isF d s e = (k : ℚ) / 10 := by
  simp only [slot2Fee]
  split
  · split
    · exact tenth_applyDiscount _ _ _ (nat_hourlyFee _ _ _ (ratesSlot2PriceNat _))
    · exact ⟨0, by norm_num⟩
  · exact ⟨0, by norm_num⟩

/-- An hour count times the evening rate is a natural number. -/
theorem nat_mul_slot3 (hours w : ℕ) :
    ∃ n : ℕ, (hours : ℚ) * (RATES w).slot3Price = (n : ℚ) :=
  ⟨hours * 5, by rw [ratesSlot3Price]; push_cast; ring⟩

/-- The evening-slot fee is an integer multiple of one tenth. -/
theorem tenth_slot3Fee (isF : Bool) (d : ℕ) (s e : ℕ) :
    ∃ k : ℕ, slot3Fee isF d s e = (k : ℚ) / 10 := by
  simp only [slot3Fee]
  split
  · split
    · exact tenth_applyDiscount _ _ _ (nat_mul_slot3 _ _)
    · exact ⟨0, by norm_num⟩
  · exact ⟨0, by norm_num⟩

/-- Each day's fee is an integer multiple of one tenth. -/
theorem tenth_dayFee (isF : Bool) (a l : ℕ) (d : ℕ) :
    ∃ k : ℕ, dayFee isF a l d = (k : ℚ) / 10 := by
  simp only [dayFee]
  exact tenth_add (tenth_add (tenth_slot1Fee _ _ _ _) (tenth_slot2Fee _ _ _ _))
    (tenth_slot3Fee _ _ _ _)

/-- Summing per-day fees preserves being an integer multiple of one tenth. -/
theorem tenth_sum (f : ℕ → ℚ) (xs : List ℕ) (h : ∀ x ∈ xs, ∃ k : ℕ, f x = (k : ℚ) / 10) :
    ∃ k : ℕ, (xs.map f).sum = (k : ℚ) / 10 := by
  induction xs with
  | nil => exact ⟨0, by norm_num⟩
  | cons x xs ih =>
    obtain ⟨a, ha⟩ := h x (by simp)
    obtain ⟨b, hb⟩ := ih (fun y hy => h y (by simp [hy]))
    refine ⟨a + b, ?_⟩
    simp only [List.map_cons, List.sum_cons, ha, hb]
    push_cast
    ring

/-- Evaluating `rnd` at a natural number is the identity. -/
theorem rnd_natCast (m : ℕ) : rnd ((m : ℕ) : ℚ) = m := by
  simp [rnd, Rat.num_natCast, Rat.den_natCast, Nat.mod_one]

/-- Evaluating `round2` at an integer multiple of one tenth is the identity. -/
theorem round2_tenth {q : ℚ} (h : ∃ n : ℕ, q = (n : ℚ) / 10) : round2 q = q := by
  obtain ⟨n, rfl⟩ := h
  unfold round2
  have h1 : ((n : ℚ) / 10) * 100 = ((10 * n : ℕ) : ℚ) := by push_cast; ring
  rw [h1, rnd_natCast]
  push_cast
  ring

/-- Re-clamping a stay to one day's window does not change that day's fee. -/
theorem dayFee_clamp (isF : Bool) (a l : ℕ) (d : ℕ) :
    dayFee isF (max a (combine d 0)) (min l (combine d 86399)) d = dayFee isF a l d := by
  simp only [dayFee, max_assoc, max_self, min_assoc, min_self]

/-- Claim C1: for an hourly slot, when the rounded hour count exceeds the slot's
`max_stay`, the fee is `max_stay * price + (hours - max_stay) * price * 2`; in
particular a non-frequent stay from Monday 2024-01-01 08:00 (instant 28800) to
12:00 (instant 43200) — 4 hours in the 08:00-16:59 slot with cap 2 — costs 60.00. -/
theorem C1_overage_doubles :
    (∀ (hours maxStay : ℕ) (price : ℚ), maxStay < hours →
      hourlyFee hours price maxStay
        = (maxStay : ℚ) * price + ((hours - maxStay : ℕ) : ℚ) * price * 2)
    ∧ calculate_fee false 28800 43200 = 60 := by
  constructor
  · intro hours maxStay price h
    unfold hourlyFee
    rw [if_neg (Nat.not_le.mpr h)]
  · norm_num [calculate_fee, dayRange, dateOf, secPerDay, dayFee, slot1Fee, slot2Fee,
      slot3Fee, applyDiscount, hourlyFee, roundHours, RATES, round2, rnd, timeOf,
      weekdayOf, combine, hms, List.range_succ]

/-- Witness for C1: the overage formula at hours = 4, cap = 2, price = 10, plus the
concrete stay. -/
theorem C1_overage_doubles_witness :
    hourlyFee 4 10 2 = ((2 : ℕ) : ℚ) * 10 + (((4 - 2 : ℕ)) : ℚ) * 10 * 2
      ∧ calculate_fee false 28800 43200 = 60 :=
  ⟨C1_overage_doubles.1 4 2 10 (by decide), C1_overage_doubles.2⟩

/-- Claim C2: the rate table is flat 20.00 / 10.00 per hour capped at 2 / 5.00 per
hour for Monday-Friday (weekdays 0-4), with the middle slot 3.00 per hour capped at
4 on Saturday (5) and 2.00 per hour capped at 8 on Sunday (6); the flat fee and the
evening rate are the same on all seven days. -/
theorem C2_rate_table :
    (∀ w : Fin 5, RATES w.val = ⟨20, 10, 2, 5⟩)
    ∧ RATES 5 = ⟨20, 3, 4, 5⟩
    ∧ RATES 6 = ⟨20, 2, 8, 5⟩
    ∧ (∀ w : Fin 7, (RATES w.val).priceOneTime = 20 ∧ (RATES w.val).slot3Price = 5) := by
  refine ⟨?_, rfl, rfl, ?_⟩
  · intro w
    fin_cases w <;> rfl
  · intro w
    fin_cases w <;> exact ⟨rfl, rfl⟩

/-- Claim C3: a non-frequent stay from Friday 23:00 (day 4 = 2024-01-05, instant
428400) to Saturday 01:00 (instant 435600) costs 25.00: one rounded evening hour at
5.00 on Friday plus the Saturday flat fee 20.00. -/
theorem C3_cross_midnight_fee : calculate_fee false 428400 435600 = 25 := by
  norm_num [calculate_fee, dayRange, dateOf, secPerDay, dayFee, slot1Fee, slot2Fee,
    slot3Fee, applyDiscount, hourlyFee, roundHours, RATES, round2, rnd, timeOf,
    weekdayOf, combine, hms, List.range_succ]

/-- Claim C4: with the flag off every fee is unchanged; with it on, a fee is halved
when its representative instant's time-of-day is at least 17:00 or before 08:00 and
multiplied by 0.9 otherwise.  The three pipeline examples exercise the fixed
representative instants: a frequent Sunday 01:00-05:00 stay (instants 522000-536400)
pays the flat fee halved (rep. 01:00), a frequent Monday 08:00-10:00 stay
(28800-36000) pays 2 x 10 x 0.9 (rep. 08:00), and a frequent Monday 17:00-19:00 stay
(61200-68400) pays 2 x 5 x 0.5 (rep. 17:00). -/
theorem C4_discount_rule :
    (∀ (price : ℚ) (t : ℕ), applyDiscount false price t = price)
    ∧ (∀ (price : ℚ) (t : ℕ),
        hms 17 0 0 ≤ timeOf t ∨ timeOf t < hms 8 0 0 →
        applyDiscount true price t = price * (1 / 2))
    ∧ (∀ (price : ℚ) (t : ℕ),
        timeOf t < hms 17 0 0 → hms 8 0 0 ≤ timeOf t →
        applyDiscount true price t = price * (9 / 10))
    ∧ calculate_fee true 522000 536400 = 10
    ∧ calculate_fee true 28800 36000 = 18
    ∧ calculate_fee true 61200 68400 = 5 := by
  refine ⟨?_, ?_, ?_, ?_, ?_, ?_⟩
  · intro price t
    rfl
  · intro price t h
    simp only [applyDiscount, Bool.not_true, Bool.false_eq_true, if_false, if_pos h]
  · intro price t h1 h2
    have hc : ¬(hms 17 0 0 ≤ timeOf t ∨ timeOf t < hms 8 0 0) := by
      simp only [hms] at *
      omega
    simp only [applyDiscount, Bool.not_true, Bool.false_eq_true, if_false, if_neg hc]
  · norm_num [calculate_fee, dayRange, dateOf, secPerDay, dayFee, slot1Fee, slot2Fee,
      slot3Fee, applyDiscount, hourlyFee, roundHours, RATES, round2, rnd, timeOf,
      weekdayOf, combine, hms, List.range_succ]
  · norm_num [calculate_fee, dayRange, dateOf, secPerDay, dayFee, slot1Fee, slot2Fee,
      slot3Fee, applyDiscount, hourlyFee, roundHours, RATES, round2, rnd, timeOf,
      weekdayOf, combine, hms, List.range_succ]
  · norm_num [calculate_fee, dayRange, dateOf, secPerDay, dayFee, slot1Fee, slot2Fee,
      slot3Fee, applyDiscount, hourlyFee, roundHours, RATES, round2, rnd, timeOf,
      weekdayOf, combine, hms, List.range_succ]

/-- Witness for C4: the 50% branch at 01:00 (time-of-day 3600) and the 10% branch at
08:20 (time-of-day 30000). -/
theorem C4_discount_rule_witness :
    applyDiscount true 20 3600 = 20 * (1 / 2)
      ∧ applyDiscount true 10 30000 = 10 * (9 / 10) :=
  ⟨C4_discount_rule.2.1 20 3600 (by decide),
   C4_discount_rule.2.2.1 10 30000 (by decide) (by decide)⟩

/-- Counterexample to claim C5: a 30-minute overlap does not round to 1 hour and
Monday 08:00-08:30 (instants 28800-30600) is not charged 10.00 — Python `round` is
half-to-even, so `round(0.5)` is 0. -/
theorem C5_counterexample_half_hour :
    roundHours 1800 ≠ 1 ∧ calculate_fee false 28800 30600 ≠ 10 := by
  constructor
  · decide
  · norm_num [calculate_fee, dayRange, dateOf, secPerDay, dayFee, slot1Fee, slot2Fee,
      slot3Fee, applyDiscount, hourlyFee, roundHours, RATES, round2, rnd, timeOf,
      weekdayOf, combine, hms, List.range_succ]

/-- Claim C5 as amended: an exact 30-minute (1800-second) overlap rounds half-to-even
to 0 hours and is charged nothing; a non-frequent stay Monday 08:00-08:30 returns
0.00. -/
theorem C5_half_hour_rounds_to_zero :
    roundHours 1800 = 0 ∧ calculate_fee false 28800 30600 = 0 := by
  constructor
  · decide
  · norm_num [calculate_fee, dayRange, dateOf, secPerDay, dayFee, slot1Fee, slot2Fee,
      slot3Fee, applyDiscount, hourlyFee, roundHours, RATES, round2, rnd, timeOf,
      weekdayOf, combine, hms, List.range_succ]

/-- Counterexample to claim C6: a 90-minute overlap does not yield 1 charged hour and
Monday 08:00-09:30 (instants 28800-34200) is not charged 10.00 — `round(1.5)` is 2
under Python's half-to-even rounding. -/
theorem C6_counterexample_ninety_minutes :
    roundHours 5400 ≠ 1 ∧ calculate_fee false 28800 34200 ≠ 10 := by
  constructor
  · decide
  · norm_num [calculate_fee, dayRange, dateOf, secPerDay, dayFee, slot1Fee, slot2Fee,
      slot3Fee, applyDiscount, hourlyFee, roundHours, RATES, round2, rnd, timeOf,
      weekdayOf, combine, hms, List.range_succ]

/-- Claim C6 as amended: an exact 90-minute (5400-second) overlap rounds half-to-even
to 2 hours, so a non-frequent stay Monday 08:00-09:30 is charged 2 x 10.00 = 20.00. -/
theorem C6_ninety_minutes_round_to_two :
    roundHours 5400 = 2 ∧ calculate_fee false 28800 34200 = 20 := by
  constructor
  · decide
  · norm_num [calculate_fee, dayRange, dateOf, secPerDay, dayFee, slot1Fee, slot2Fee,
      slot3Fee, applyDiscount, hourlyFee, roundHours, RATES, round2, rnd, timeOf,
      weekdayOf, combine, hms, List.range_succ]

/-- Claim C7: for every day touched by a stay, whenever the time-of-day overlap test
`max(dayStart.time, 00:00) <= min(dayEnd.time, 07:59)` passes, that day's flat-slot
contribution is exactly one (possibly discounted) flat fee; and the boundary cases
hold: a non-frequent Monday stay ending exactly at 07:59 (instants 25200-28740) and
one starting exactly at 00:00 (instants 0-1800) are each charged the flat fee
20.00. -/
theorem C7_flat_fee_charged_once :
    (∀ (isF : Bool) (arrival leave : ℕ) (d : ℕ),
      max (timeOf (max arrival (combine d 0))) (hms 0 0 0)
        ≤ min (timeOf (min leave (combine d 86399))) (hms 7 59 0) →
      slot1Fee isF d (max arrival (combine d 0)) (min leave (combine d 86399))
        = applyDiscount isF (RATES (weekdayOf d)).priceOneTime (combine d (hms 1 0 0)))
    ∧ calculate_fee false 25200 28740 = 20
    ∧ calculate_fee false 0 1800 = 20 := by
  refine ⟨?_, ?_, ?_⟩
  · intro isF arrival leave d h
    unfold slot1Fee
    rw [if_pos h]
  · norm_num [calculate_fee, dayRange, dateOf, secPerDay, dayFee, slot1Fee, slot2Fee,
      slot3Fee, applyDiscount, hourlyFee, roundHours, RATES, round2, rnd, timeOf,
      weekdayOf, combine, hms, List.range_succ]
  · norm_num [calculate_fee, dayRange, dateOf, secPerDay, dayFee, slot1Fee, slot2Fee,
      slot3Fee, applyDiscount, hourlyFee, roundHours, RATES, round2, rnd, timeOf,
      weekdayOf, combine, hms, List.range_succ]

/-- Witness for C7: the flat-slot test passes for the Monday 07:00-07:59 stay on day
0, so the slot contributes exactly the (undiscounted) flat fee. -/
theorem C7_flat_fee_charged_once_witness :
    slot1Fee false 0 (max 25200 (combine 0 0)) (min 28740 (combine 0 86399))
      = applyDiscount false (RATES (weekdayOf 0)).priceOneTime (combine 0 (hms 1 0 0)) :=
  C7_flat_fee_charged_once.1 false 25200 28740 0 (by decide)

/-- Claim C8: the nominal windows [00:00,08:00), [08:00,17:00), [17:00,24:00) formed
by the slot start times are pairwise disjoint and cover the day, and — at the
system's whole-minute inputs — every time-of-day lies in exactly one of the code's
inclusive charging windows [00:00,07:59], [08:00,16:59], [17:00,23:59:59]. -/
theorem C8_slots_partition_day :
    (∀ s : ℕ, s < 86400 →
      (s < hms 8 0 0 ∧ ¬(hms 8 0 0 ≤ s ∧ s < hms 17 0 0) ∧ ¬hms 17 0 0 ≤ s)
      ∨ (¬s < hms 8 0 0 ∧ (hms 8 0 0 ≤ s ∧ s < hms 17 0 0) ∧ ¬hms 17 0 0 ≤ s)
      ∨ (¬s < hms 8 0 0 ∧ ¬(hms 8 0 0 ≤ s ∧ s < hms 17 0 0) ∧ hms 17 0 0 ≤ s))
    ∧ (∀ s : ℕ, s < 86400 → s % 60 = 0 →
      (s ≤ hms 7 59 0 ∧ ¬(hms 8 0 0 ≤ s ∧ s ≤ hms 16 59 0) ∧ ¬(hms 17 0 0 ≤ s ∧ s ≤ hms 23 59 59))
      ∨ (¬s ≤ hms 7 59 0 ∧ (hms 8 0 0 ≤ s ∧ s ≤ hms 16 59 0) ∧ ¬(hms 17 0 0 ≤ s ∧ s ≤ hms 23 59 59))
      ∨ (¬s ≤ hms 7 59 0 ∧ ¬(hms 8 0 0 ≤ s ∧ s ≤ hms 16 59 0)
          ∧ (hms 17 0 0 ≤ s ∧ s ≤ hms 23 59 59))) := by
  constructor
  · intro s h
    simp only [hms]
    omega
  · intro s h h60
    simp only [hms]
    omega

/-- Witness for C8 at the whole-minute time-of-day 08:20 (second 30000). -/
theorem C8_slots_partition_day_witness :
    (30000 < hms 8 0 0 ∧ ¬(hms 8 0 0 ≤ 30000 ∧ 30000 < hms 17 0 0) ∧ ¬hms 17 0 0 ≤ 30000)
    ∨ (¬30000 < hms 8 0 0 ∧ (hms 8 0 0 ≤ 30000 ∧ 30000 < hms 17 0 0) ∧ ¬hms 17 0 0 ≤ 30000)
    ∨ (¬30000 < hms 8 0 0 ∧ ¬(hms 8 0 0 ≤ 30000 ∧ 30000 < hms 17 0 0)
        ∧ hms 17 0 0 ≤ 30000) :=
  C8_slots_partition_day.1 30000 (by decide)

/-- For a day inside the stay's date range, clamping the stay to that day yields a
one-day range `[d]`. -/
theorem dayRange_clamped (a l d : ℕ) (hda : dateOf a ≤ d) (hdl : d ≤ dateOf l) :
    dayRange (max a (combine d 0)) (min l (combine d 86399)) = [d] := by
  have e1 : dateOf (max a (combine d 0)) = d := by
    simp only [dateOf, combine, secPerDay] at *
    omega
  have e2 : dateOf (min l (combine d 86399)) = d := by
    simp only [dateOf, combine, secPerDay] at *
    omega
  simp [dayRange, e1, e2, List.range_succ]

/-- Claim C9: the fee of a whole stay equals the sum, over each calendar day the loop
visits, of an independent `calculate_fee` call on that day's occupied portion
(the stay clamped to `[start_of_day d, end_of_day d]`), with the same flag. -/
theorem C9_day_decomposition (isF : Bool) (a l : ℕ) (h : a ≤ l) :
    calculate_fee isF a l
      = ((dayRange a l).map
          (fun d => calculate_fee isF (max a (combine d 0)) (min l (combine d 86399)))).sum := by
  have hmem : ∀ d ∈ dayRange a l, dateOf a ≤ d ∧ d ≤ dateOf l := by
    intro d hd
    simp only [dayRange, List.mem_map, List.mem_range] at hd
    obtain ⟨i, hi, rfl⟩ := hd
    simp only [dateOf, secPerDay] at *
    omega
  have hsingle : ∀ d ∈ dayRange a l,
      (fun d => calculate_fee isF (max a (combine d 0)) (min l (combine d 86399))) d
        = dayFee isF a l d := by
    intro d hd
    obtain ⟨hda, hdl⟩ := hmem d hd
    show calculate_fee isF (max a (combine d 0)) (min l (combine d 86399)) = _
    unfold calculate_fee
    rw [dayRange_clamped a l d hda hdl]
    simp only [List.map_cons, List.map_nil, List.sum_cons, List.sum_nil, add_zero]
    rw [dayFee_clamp]
    exact round2_tenth (tenth_dayFee _ _ _ _)
  rw [List.map_congr_left hsingle]
  unfold calculate_fee
  exact round2_tenth (tenth_sum _ _ (fun d _ => tenth_dayFee isF a l d))

/-- Witness for C9: a three-day non-frequent stay from Monday 10:00 (instant 36000)
to Wednesday 14:00 (instant 223200). -/
theorem C9_day_decomposition_witness :
    calculate_fee false 36000 223200
      = ((dayRange 36000 223200).map
          (fun d => calculate_fee false (max 36000 (combine d 0))
            (min 223200 (combine d 86399)))).sum :=
  C9_day_decomposition false 36000 223200 (by norm_num)

/-- Claim C10: a zero-length call `calculate_fee t t` whose time-of-day is 07:59 or
earlier returns the flat fee — 20.00, or 10.00 for a frequent parker — because the
flat-slot touch test accepts the zero-duration overlap while both hourly slots
require strictly positive overlap. -/
theorem C10_zero_length_stay_flat_fee (isF : Bool) (t : ℕ)
    (h : timeOf t ≤ hms 7 59 0) :
    calculate_fee isF t t = if isF then 10 else 20 := by
  simp only [timeOf, secPerDay, hms] at h
  norm_num at h
  have hex : ∃ d r, r ≤ 28740 ∧ t = d * 86400 + r :=
    ⟨t / 86400, t % 86400, by omega, by omega⟩
  obtain ⟨d, r, hr, rfl⟩ := hex
  have hdate : dateOf (d * 86400 + r) = d := by
    simp only [dateOf, secPerDay]
    omega
  have hrange : dayRange (d * 86400 + r) (d * 86400 + r) = [d] := by
    simp [dayRange, hdate, List.range_succ]
  unfold calculate_fee
  rw [hrange]
  simp only [List.map_cons, List.map_nil, List.sum_cons, List.sum_nil, add_zero]
  have h1 : max (d * 86400 + r) (combine d 0) = d * 86400 + r := by
    simp only [combine, secPerDay]
    omega
  have h2 : min (d * 86400 + r) (combine d 86399) = d * 86400 + r := by
    simp only [combine, secPerDay]
    omega
  simp only [dayFee, slot1Fee, slot2Fee, slot3Fee, h1, h2]
  have c1 : max (timeOf (d * 86400 + r)) (hms 0 0 0)
      ≤ min (timeOf (d * 86400 + r)) (hms 7 59 0) := by
    simp only [timeOf, secPerDay, hms]
    omega
  have c2 : ¬(max (d * 86400 + r) (combine d (hms 8 0 0))
      < min (d * 86400 + r) (combine d (hms 16 59 0))) := by
    simp only [combine, secPerDay, hms]
    omega
  have c3 : ¬(max (d * 86400 + r) (combine d (hms 17 0 0))
      < min (d * 86400 + r) (combine d (hms 23 59 59))) := by
    simp only [combine, secPerDay, hms]
    omega
  rw [if_pos c1, if_neg c2, if_neg c3, add_zero, add_zero, ratesPriceOneTime]
  have ht : timeOf (combine d (hms 1 0 0)) = 3600 := by
    simp only [timeOf, combine, secPerDay, hms]
    omega
  cases isF with
  | false =>
    simp only [applyDiscount, Bool.not_false, if_true, if_false]
    norm_num [round2, rnd]
  | true =>
    simp only [applyDiscount, Bool.not_true, Bool.false_eq_true, if_false, ht]
    rw [if_pos (by norm_num [hms])]
    norm_num [round2, rnd]

/-- Witness for C10: a zero-length stay at Monday 01:00 (instant 3600), non-frequent,
is charged the flat fee. -/
theorem C10_zero_length_stay_flat_fee_witness :
    calculate_fee false 3600 3600 = if false then 10 else 20 :=
  C10_zero_length_stay_flat_fee false 3600 (by decide)

end Parking
